import Mathlib

/-!
Shallow embedding of the FITS image I/O dispatch layer (`src/imageio.cc`).

Pure parts of the source are translated directly; the external cfitsio
library, and the container/driver types declared in `imageio.h` (which is
not part of the sources here), are modelled from the specification.  A
computation is a `Proc`: it either returns a value together with the trace
of external-library calls it performed, or it terminates the process after
printing a diagnostic.
-/

namespace Imageio

/-- FITS HDU type code for an image extension (external library constant). -/
def IMAGE_HDU : Int := 0

/-- FITS HDU type code for an ASCII table extension (external library constant). -/
def ASCII_TBL : Int := 1

/-- FITS HDU type code for a binary table extension (external library constant). -/
def BINARY_TBL : Int := 2

/-- FITS storage tag (bitpix) for 32-bit floating point images (external library constant). -/
def FLOAT_IMG : Int := -32

/-- FITS storage tag (bitpix) for 64-bit floating point images (external library constant). -/
def DOUBLE_IMG : Int := -64

/-- cfitsio data-type code for 32-bit floats (external library constant). -/
def TFLOAT : Int := 42

/-- cfitsio data-type code for 64-bit floats (external library constant). -/
def TDOUBLE : Int := 82

/-- std::numeric_limits<int>::max() = 2^31 - 1. -/
def INT_MAX : Int := 2147483647

/-- The two pixel precisions the source instantiates its templates at. -/
inductive Precision where
  | f32
  | f64
deriving DecidableEq

/-- get_type_descr<T> from the source. -/
def get_type_descr : Precision → String
  | .f32 => "32-bit floats"
  | .f64 => "64-bit floats"

/-- get_fits_type<T> from the source. -/
def get_fits_type : Precision → Int
  | .f32 => TFLOAT
  | .f64 => TDOUBLE

/-- get_fits_bitpix<T> from the source. -/
def get_fits_bitpix : Precision → Int
  | .f32 => FLOAT_IMG
  | .f64 => DOUBLE_IMG

/-- A pixel value of the floating point type T: either a finite (non-NaN)
value identified by its bit pattern, or the quiet-NaN sentinel. -/
inductive Pix where
  | finite : Int → Pix
  | nan : Pix
deriving DecidableEq

/-- std::numeric_limits<T>::quiet_NaN() in the pixel model. -/
def quiet_NaN (_prec : Precision) : Pix := .nan

/-- Modelled from the spec: Image1D<T> declared in imageio.h (not under
src/): a 1-D pixel container with extent x and flat owned buffer p. -/
structure Image1D where
  x : Int
  p : List Pix
deriving DecidableEq

/-- Image1D::size(): element count of the buffer. -/
def Image1D.size (img : Image1D) : Int := img.x

/-- Modelled from the spec: Image2D<T> declared in imageio.h (not under
src/): a 2-D pixel container with extents x, y and flat owned buffer p. -/
structure Image2D where
  x : Int
  y : Int
  p : List Pix
deriving DecidableEq

/-- Image2D::size(): element count of the buffer. -/
def Image2D.size (img : Image2D) : Int := img.x * img.y

/-- Modelled from the spec: Settings carries at minimum the source file path. -/
structure Settings where
  source : String
deriving DecidableEq

/-- Modelled from the spec: the polymorphic driver handle declared in
imageio.h; a concrete Driver<T, Image> wraps exactly one container of one
supported (precision, rank) combination, upcast to VDriver. -/
inductive VDriver where
  | driver1D : Precision → Settings → Image1D → VDriver
  | driver2D : Precision → Settings → Image2D → VDriver
deriving DecidableEq

/-- Modelled from the spec: the state of a FITS file as seen through the
external library: HDU type of the first data unit, storage tag, axis
count, extents, and the pixel cells (none marks an undefined pixel). -/
structure FitsFile where
  hdutype : Int
  bitpix : Int
  naxis : Int
  naxes : List Int
  data : List (Option Int)
deriving DecidableEq

/-- Events recording calls into the external library, used to state call
ordering. -/
inductive Ev where
  | openF
  | getHduType
  | getImgType
  | getImgDim
  | getImgSize
  | readImg
  | closeF
  | createF
  | createImg
  | writeImg
deriving DecidableEq

/-- Outcome of a computation in this subsystem: a value together with the
trace of external-library calls performed, or process termination after
printing a diagnostic to the error stream. -/
inductive Proc (α : Type) where
  | ok : List Ev → α → Proc α
  | exit : List Ev → String → Proc α
deriving DecidableEq

/-- Prepend a trace of already-performed calls to an outcome. -/
def Proc.addTrace {α : Type} (t : List Ev) : Proc α → Proc α
  | .ok t2 a => .ok (t ++ t2) a
  | .exit t2 m => .exit (t ++ t2) m

/-- Sequencing: the second computation runs only if the first did not
terminate the process; traces accumulate in order. -/
def Proc.bind {α β : Type} : Proc α → (α → Proc β) → Proc β
  | .ok t a, g => Proc.addTrace t (g a)
  | .exit t m, _ => .exit t m

instance : Monad Proc where
  pure a := .ok [] a
  bind := Proc.bind

/-- Modelled from the spec: the text fits_report_error prints on the
external library's diagnostic channel for a given status. -/
def fits_report_error_text (s : Int) : String := s!"FITSIO error status {s}"

/-- fcheck from the source: a no-op on status 0, otherwise report through
the external library's diagnostic channel and terminate the process. -/
def fcheck (s : Int) : Proc Unit :=
  if s ≠ 0 then .exit [] (fits_report_error_text s) else .ok [] ()

/-- Modelled from the spec: fits_open_file in READONLY mode; `file` is the
content of the file system at the given path, opening yields that file
and a zero status. -/
def fits_open_file (_filename : String) (file : FitsFile) : Proc (FitsFile × Int) :=
  .ok [.openF] (file, 0)

/-- Modelled from the spec: fits_get_hdu_type reports the type of the
current (first) data unit. -/
def fits_get_hdu_type (f : FitsFile) : Proc (Int × Int) :=
  .ok [.getHduType] (f.hdutype, 0)

/-- Modelled from the spec: fits_get_img_type reports the storage tag. -/
def fits_get_img_type (f : FitsFile) : Proc (Int × Int) :=
  .ok [.getImgType] (f.bitpix, 0)

/-- Modelled from the spec: fits_get_img_dim reports the axis count. -/
def fits_get_img_dim (f : FitsFile) : Proc (Int × Int) :=
  .ok [.getImgDim] (f.naxis, 0)

/-- Modelled from the spec: fits_get_img_size fills the first
min(naxis, maxdim) entries of the caller's zero-initialized array with
the extents read from the file metadata. -/
def fits_get_img_size (f : FitsFile) (maxdim : Nat) : Proc (List Int × Int) :=
  .ok [.getImgSize]
    ((List.range maxdim).map (fun i => if i < f.naxis.toNat then f.naxes.getD i 0 else 0), 0)

/-- Modelled from the spec: fits_read_img reads nelements pixels in one
call starting at the first, substituting nulval (the quiet-NaN sentinel)
for every pixel the source marks undefined, and reports in anynul whether
any substitution occurred. -/
def fits_read_img (f : FitsFile) (_typ : Int) (_firstelem : Int) (nelements : Int)
    (nulval : Pix) : Proc (List Pix × Bool × Int) :=
  let cells := f.data.take nelements.toNat
  .ok [.readImg]
    (cells.map (fun c => match c with | some b => .finite b | none => nulval),
     cells.any (fun c => c.isNone), 0)

/-- Modelled from the spec: fits_close_file closes the handle. -/
def fits_close_file (_f : FitsFile) : Proc Int :=
  .ok [.closeF] 0

/-- Modelled from the spec: fits_create_file creates a fresh, empty file. -/
def fits_create_file (_filename : String) : Proc (FitsFile × Int) :=
  .ok [.createF] (⟨0, 0, 0, [], []⟩, 0)

/-- Modelled from the spec: fits_create_img declares an image extension
with the given storage tag, axis count and extents. -/
def fits_create_img (f : FitsFile) (bitpix : Int) (naxis : Int) (naxes : List Int) :
    Proc (FitsFile × Int) :=
  .ok [.createImg] ({ f with hdutype := IMAGE_HDU, bitpix := bitpix,
                             naxis := naxis, naxes := naxes }, 0)

/-- Modelled from the spec: fits_write_imgnull writes nelements pixels in
one call; pixels equal to the quiet-NaN sentinel are stored as undefined
cells, all other pixels are stored with their bit pattern. -/
def fits_write_imgnull (f : FitsFile) (_typ : Int) (_firstelem : Int) (nelements : Int)
    (buffer : List Pix) (_nulval : Pix) : Proc (FitsFile × Int) :=
  let cells := (buffer.take nelements.toNat).map
    (fun px => match px with | .finite b => some b | .nan => none)
  .ok [.writeImg] ({ f with data := cells }, 0)

/-- verify_dim_2d from the source. -/
def verify_dim_2d (naxes : List Int) : Proc Unit :=
  let x := naxes.getD 0 0
  let y := naxes.getD 1 0
  if x < 1 ∨ y < 1 then
    .exit [] s!"image dimensions {x}x{y} too small"
  else if x * y ≥ INT_MAX then
    .exit [] s!"image dimensions {x}x{y} too large"
  else
    .ok [] ()

/-- verify_dim_1d from the source. -/
def verify_dim_1d (naxes : List Int) : Proc Unit :=
  let x := naxes.getD 0 0
  if x < 1 then
    .exit [] s!"image dimension {x} too small"
  else if x ≥ INT_MAX then
    .exit [] s!"image dimension {x} too large"
  else
    .ok [] ()

/-- read_image_data_2d<T> from the source.  The filename parameter is
present in the source and unused there; the open handle is `f`. -/
def read_image_data_2d (prec : Precision) (filename : String) (f : FitsFile) :
    Proc Image2D := do
  let (naxes, s) ← fits_get_img_size f 2
  fcheck s
  verify_dim_2d naxes
  let x := naxes.getD 0 0
  let y := naxes.getD 1 0
  let img : Image2D := { x := x, y := y, p := [] }
  let nulval := quiet_NaN prec
  let (buf, _anynul, s2) ← fits_read_img f (get_fits_type prec) 1 img.size nulval
  fcheck s2
  let s3 ← fits_close_file f
  fcheck s3
  return { img with p := buf }

/-- read_image_data_1d<T> from the source.  The filename parameter is
present in the source and unused there; the open handle is `f`. -/
def read_image_data_1d (prec : Precision) (filename : String) (f : FitsFile) :
    Proc Image1D := do
  let (naxes, s) ← fits_get_img_size f 1
  fcheck s
  verify_dim_1d naxes
  let x := naxes.getD 0 0
  let img : Image1D := { x := x, p := [] }
  let nulval := quiet_NaN prec
  let (buf, _anynul, s2) ← fits_read_img f (get_fits_type prec) 1 img.size nulval
  fcheck s2
  let s3 ← fits_close_file f
  fcheck s3
  return { img with p := buf }

/-- open_image_for_reading from the source; `file` is the content of the
file system at the given path. -/
def open_image_for_reading (filename : String) (file : FitsFile) : Proc FitsFile := do
  let (f, s) ← fits_open_file filename file
  fcheck s
  let (hdutype, s2) ← fits_get_hdu_type f
  fcheck s2
  if hdutype ≠ IMAGE_HDU then
    Proc.exit []
      ("expected IMAGE_HDU, got " ++
        (if hdutype = ASCII_TBL then "ASCII_TBL"
         else if hdutype = BINARY_TBL then "BINARY_TBL"
         else toString hdutype))
  else
    return f

/-- from_image_helper<T> from the source. -/
def from_image_helper (prec : Precision) (settings : Settings) (f : FitsFile) :
    Proc VDriver := do
  let (naxis, s) ← fits_get_img_dim f
  fcheck s
  if naxis = 1 then
    let img ← read_image_data_1d prec settings.source f
    return VDriver.driver1D prec settings img
  else if naxis = 2 then
    let img ← read_image_data_2d prec settings.source f
    return VDriver.driver2D prec settings img
  else
    Proc.exit [] s!"expected 1-dimensional or 2-dimensional data, got {naxis}-dimensional data"

/-- from_image from the source; `file` is the content of the file system
at settings.source. -/
def from_image (settings : Settings) (file : FitsFile) : Proc VDriver := do
  let f ← open_image_for_reading settings.source file
  let (bitpix, s) ← fits_get_img_type f
  fcheck s
  if bitpix = get_fits_bitpix .f32 then
    from_image_helper .f32 settings f
  else if bitpix = get_fits_bitpix .f64 then
    from_image_helper .f64 settings f
  else
    Proc.exit []
      ("unexpected data type: " ++
        (if bitpix < 0 then s!"{-bitpix}-bit floats" else s!"{bitpix}-bit integers"))

/-- write_image<T>(filename, Image2D) from the source; returns the file
content created at the target path. -/
def write_image_2d (prec : Precision) (filename : String) (img : Image2D) :
    Proc FitsFile := do
  let (f, s) ← fits_create_file filename
  fcheck s
  let naxes : List Int := [img.x, img.y]
  let (f2, s2) ← fits_create_img f (get_fits_bitpix prec) 2 naxes
  fcheck s2
  let nulval := quiet_NaN prec
  let (f3, s3) ← fits_write_imgnull f2 (get_fits_type prec) 1 img.size img.p nulval
  fcheck s3
  let s4 ← fits_close_file f3
  fcheck s4
  return f3

/-- write_image<T>(filename, Image1D) from the source; returns the file
content created at the target path. -/
def write_image_1d (prec : Precision) (filename : String) (img : Image1D) :
    Proc FitsFile := do
  let (f, s) ← fits_create_file filename
  fcheck s
  let naxes : List Int := [img.x]
  let (f2, s2) ← fits_create_img f (get_fits_bitpix prec) 1 naxes
  fcheck s2
  let nulval := quiet_NaN prec
  let (f3, s3) ← fits_write_imgnull f2 (get_fits_type prec) 1 img.size img.p nulval
  fcheck s3
  let s4 ← fits_close_file f3
  fcheck s4
  return f3

/-! ## Basic lemmas about the outcome monad -/

@[simp]
theorem Proc.addTrace_ok {α : Type} (t t2 : List Ev) (a : α) :
    Proc.addTrace t (.ok t2 a) = .ok (t ++ t2) a := rfl

@[simp]
theorem Proc.addTrace_exit {α : Type} (t t2 : List Ev) (m : String) :
    Proc.addTrace t (.exit t2 m : Proc α) = .exit (t ++ t2) m := rfl

@[simp]
theorem Proc.addTrace_nil {α : Type} (p : Proc α) : Proc.addTrace [] p = p := by
  cases p <;> rfl

@[simp]
theorem Proc.addTrace_addTrace {α : Type} (t t2 : List Ev) (p : Proc α) :
    Proc.addTrace t (Proc.addTrace t2 p) = Proc.addTrace (t ++ t2) p := by
  cases p <;> simp [Proc.addTrace]

@[simp]
theorem Proc.bind_ok {α β : Type} (t : List Ev) (a : α) (g : α → Proc β) :
    Proc.bind (.ok t a) g = Proc.addTrace t (g a) := rfl

@[simp]
theorem Proc.bind_exit {α β : Type} (t : List Ev) (m : String) (g : α → Proc β) :
    Proc.bind (.exit t m) g = .exit t m := rfl

@[simp]
theorem Proc.bind_eq {α β : Type} (x : Proc α) (g : α → Proc β) :
    x >>= g = Proc.bind x g := rfl

@[simp]
theorem Proc.pure_eq {α : Type} (a : α) : (pure a : Proc α) = .ok [] a := rfl

/-- On a handle whose first unit is an image, opening returns the handle
after exactly the open and HDU-type calls. -/
theorem open_image_ok (fn : String) (file : FitsFile) (h : file.hdutype = IMAGE_HDU) :
    open_image_for_reading fn file = .ok [.openF, .getHduType] file := by
  simp [open_image_for_reading, fits_open_file, fits_get_hdu_type, fcheck, h]

/-- On a handle whose first unit is not an image, opening exits. -/
theorem open_image_exit (fn : String) (file : FitsFile) (h : file.hdutype ≠ IMAGE_HDU) :
    ∃ m, open_image_for_reading fn file = .exit [.openF, .getHduType] m := by
  simp [open_image_for_reading, fits_open_file, fits_get_hdu_type, fcheck, h]

/-- The 2-D loader either exits during validation or returns a container
after exactly the size, read and close calls. -/
theorem read2d_cases (prec : Precision) (fn : String) (f : FitsFile) :
    (∃ m, read_image_data_2d prec fn f = .exit [.getImgSize] m) ∨
    (∃ img, read_image_data_2d prec fn f = .ok [.getImgSize, .readImg, .closeF] img) := by
  simp only [read_image_data_2d, fits_get_img_size, fits_read_img, fits_close_file,
    fcheck, verify_dim_2d, quiet_NaN, Proc.bind_eq, Proc.bind_ok, Proc.bind_exit,
    Proc.pure_eq, Proc.addTrace_ok, Proc.addTrace_exit, Proc.addTrace_nil,
    Proc.addTrace_addTrace]
  split_ifs <;> simp

/-- The 1-D loader either exits during validation or returns a container
after exactly the size, read and close calls. -/
theorem read1d_cases (prec : Precision) (fn : String) (f : FitsFile) :
    (∃ m, read_image_data_1d prec fn f = .exit [.getImgSize] m) ∨
    (∃ img, read_image_data_1d prec fn f = .ok [.getImgSize, .readImg, .closeF] img) := by
  simp only [read_image_data_1d, fits_get_img_size, fits_read_img, fits_close_file,
    fcheck, verify_dim_1d, quiet_NaN, Proc.bind_eq, Proc.bind_ok, Proc.bind_exit,
    Proc.pure_eq, Proc.addTrace_ok, Proc.addTrace_exit, Proc.addTrace_nil,
    Proc.addTrace_addTrace]
  split_ifs <;> simp

/-- The rank dispatcher either exits or returns a driver after exactly
the dim, size, read and close calls. -/
theorem from_image_helper_cases (prec : Precision) (s : Settings) (f : FitsFile) :
    (∃ t m, from_image_helper prec s f = .exit t m) ∨
    (∃ d, from_image_helper prec s f =
      .ok [.getImgDim, .getImgSize, .readImg, .closeF] d) := by
  by_cases h1 : f.naxis = 1
  · rcases read1d_cases prec s.source f with ⟨m, hm⟩ | ⟨img, himg⟩
    · refine .inl ⟨[Ev.getImgDim, Ev.getImgSize], m, ?_⟩
      simp [from_image_helper, fits_get_img_dim, fcheck, h1, hm]
    · refine .inr ⟨VDriver.driver1D prec s img, ?_⟩
      simp [from_image_helper, fits_get_img_dim, fcheck, h1, himg]
  by_cases h2 : f.naxis = 2
  · rcases read2d_cases prec s.source f with ⟨m, hm⟩ | ⟨img, himg⟩
    · refine .inl ⟨[Ev.getImgDim, Ev.getImgSize], m, ?_⟩
      simp [from_image_helper, fits_get_img_dim, fcheck, h1, h2, hm]
    · refine .inr ⟨VDriver.driver2D prec s img, ?_⟩
      simp [from_image_helper, fits_get_img_dim, fcheck, h1, h2, himg]
  · refine .inl ⟨[Ev.getImgDim],
      s!"expected 1-dimensional or 2-dimensional data, got {f.naxis}-dimensional data", ?_⟩
    simp [from_image_helper, fits_get_img_dim, fcheck, h1, h2]

/-- Storing a pixel with the sentinel convention and reading it back with
NaN substitution is the identity. -/
theorem subst_store (l : List Pix) :
    (l.map (fun px => match px with | .finite b => some b | .nan => none)).map
      (fun c => match c with | some b => Pix.finite b | none => Pix.nan) = l := by
  induction l with
  | nil => rfl
  | cons hd tl ih => cases hd <;> simp [ih]

/-- The 2-D loader on a rank-2 handle with valid extents returns the
container of the probed shape filled by one whole-buffer read with
quiet-NaN substitution, closing the handle last. -/
theorem read_image_data_2d_ok (prec : Precision) (fn : String) (f : FitsFile)
    (h2 : f.naxis = 2) (hx : 1 ≤ f.naxes.getD 0 0) (hy : 1 ≤ f.naxes.getD 1 0)
    (hp : f.naxes.getD 0 0 * f.naxes.getD 1 0 < INT_MAX) :
    read_image_data_2d prec fn f =
      .ok [.getImgSize, .readImg, .closeF]
        { x := f.naxes.getD 0 0, y := f.naxes.getD 1 0,
          p := (f.data.take (f.naxes.getD 0 0 * f.naxes.getD 1 0).toNat).map
            (fun c => match c with | some b => Pix.finite b | none => quiet_NaN prec) } := by
  simp only [read_image_data_2d, fits_get_img_size, fits_read_img, fits_close_file,
    fcheck, verify_dim_2d, Image2D.size, h2, Proc.bind_eq, Proc.bind_ok, Proc.bind_exit,
    Proc.pure_eq, Proc.addTrace_ok, Proc.addTrace_exit, Proc.addTrace_nil,
    Proc.addTrace_addTrace, List.range_succ, List.range_zero, List.map_cons, List.map_nil,
    List.nil_append, List.cons_append, List.getD_cons_zero, List.getD_cons_succ]
  simp only [List.getD, List.get?_eq_getElem?] at hx hy hp
  norm_num
  split_ifs with hsmall hlarge
  · exfalso; rcases hsmall with h | h <;> omega
  · exfalso; linarith
  · simp

/-- The 1-D loader on a rank-1 handle with a valid extent returns the
container of the probed shape filled by one whole-buffer read with
quiet-NaN substitution, closing the handle last. -/
theorem read_image_data_1d_ok (prec : Precision) (fn : String) (f : FitsFile)
    (h1 : f.naxis = 1) (hx : 1 ≤ f.naxes.getD 0 0) (hm : f.naxes.getD 0 0 < INT_MAX) :
    read_image_data_1d prec fn f =
      .ok [.getImgSize, .readImg, .closeF]
        { x := f.naxes.getD 0 0,
          p := (f.data.take (f.naxes.getD 0 0).toNat).map
            (fun c => match c with | some b => Pix.finite b | none => quiet_NaN prec) } := by
  simp only [read_image_data_1d, fits_get_img_size, fits_read_img, fits_close_file,
    fcheck, verify_dim_1d, Image1D.size, h1, Proc.bind_eq, Proc.bind_ok, Proc.bind_exit,
    Proc.pure_eq, Proc.addTrace_ok, Proc.addTrace_exit, Proc.addTrace_nil,
    Proc.addTrace_addTrace, List.range_succ, List.range_zero, List.map_cons, List.map_nil,
    List.nil_append, List.cons_append, List.getD_cons_zero, List.getD_cons_succ]
  simp only [List.getD, List.get?_eq_getElem?] at hx hm
  norm_num
  split_ifs with hsmall hlarge
  · exfalso; omega
  · exfalso; linarith
  · simp

/-- On an image handle whose storage tag matches a supported precision,
the facade dispatches to that precision's helper. -/
theorem from_image_select (prec : Precision) (s : Settings) (file : FitsFile)
    (himg : file.hdutype = IMAGE_HDU) (hbp : file.bitpix = get_fits_bitpix prec) :
    from_image s file =
      Proc.addTrace [.openF, .getHduType, .getImgType] (from_image_helper prec s file) := by
  cases prec <;>
    cases hh : from_image_helper .f32 s file <;>
    cases hh2 : from_image_helper .f64 s file <;>
    simp [from_image, open_image_ok s.source file himg, fits_get_img_type, fcheck,
      get_fits_bitpix, FLOAT_IMG, DOUBLE_IMG, hbp, hh, hh2]

/-- On a rank-2 handle the helper takes the 2-D load path. -/
theorem from_image_helper_rank2 (prec : Precision) (s : Settings) (f : FitsFile)
    (h2 : f.naxis = 2) :
    from_image_helper prec s f =
      Proc.addTrace [.getImgDim]
        (Proc.bind (read_image_data_2d prec s.source f)
          (fun img => .ok [] (.driver2D prec s img))) := by
  simp [from_image_helper, fits_get_img_dim, fcheck, h2]

/-- On a rank-1 handle the helper takes the 1-D load path. -/
theorem from_image_helper_rank1 (prec : Precision) (s : Settings) (f : FitsFile)
    (h1 : f.naxis = 1) :
    from_image_helper prec s f =
      Proc.addTrace [.getImgDim]
        (Proc.bind (read_image_data_1d prec s.source f)
          (fun img => .ok [] (.driver1D prec s img))) := by
  simp [from_image_helper, fits_get_img_dim, fcheck, h1]

/-! ## Claims -/

/-- C8: for every status value from an external-library call, the status
check fcheck is a no-op when the status is zero, and otherwise reports the
error through the external library's diagnostic channel and terminates the
process; an outcome carries no status, so no non-zero status reaches a
caller. -/
theorem claim_C8 (s : Int) :
    (s = 0 → fcheck s = .ok [] ()) ∧
    (s ≠ 0 → fcheck s = .exit [] (fits_report_error_text s)) := by
  constructor
  · intro h; simp [fcheck, h]
  · intro h; simp [fcheck, h]

/-- Witness for C8 at statuses 0 and 107. -/
theorem claim_C8_witness :
    fcheck 0 = .ok [] () ∧ fcheck 107 = .exit [] (fits_report_error_text 107) :=
  ⟨(claim_C8 0).1 rfl, (claim_C8 107).2 (by decide)⟩

/-- C9: both load helpers ignore their filename argument: for any two
filename values and the same open file handle, each helper produces the
same outcome. -/
theorem claim_C9 (prec : Precision) (fn fn' : String) (f : FitsFile) :
    read_image_data_2d prec fn f = read_image_data_2d prec fn' f ∧
    read_image_data_1d prec fn f = read_image_data_1d prec fn' f :=
  ⟨rfl, rfl⟩

/-- C2: dimension validation is fatal iff some extent is < 1 (reported as
too small) or the extents' product is ≥ 2^31−1 (reported as too large);
otherwise it returns, so a 1-D extent of 1 and a 2-D shape (1,1) are
accepted. -/
theorem claim_C2 (x y : Int) :
    (verify_dim_2d [x, y] = .ok [] () ↔ 1 ≤ x ∧ 1 ≤ y ∧ x * y < INT_MAX) ∧
    (x < 1 ∨ y < 1 → verify_dim_2d [x, y] = .exit [] s!"image dimensions {x}x{y} too small") ∧
    (1 ≤ x → 1 ≤ y → x * y ≥ INT_MAX →
      verify_dim_2d [x, y] = .exit [] s!"image dimensions {x}x{y} too large") ∧
    (verify_dim_1d [x] = .ok [] () ↔ 1 ≤ x ∧ x < INT_MAX) ∧
    (x < 1 → verify_dim_1d [x] = .exit [] s!"image dimension {x} too small") ∧
    (1 ≤ x → x ≥ INT_MAX → verify_dim_1d [x] = .exit [] s!"image dimension {x} too large") ∧
    verify_dim_1d [1] = .ok [] () ∧
    verify_dim_2d [1, 1] = .ok [] () := by
  refine ⟨?_, ?_, ?_, ?_, ?_, ?_, by decide, by decide⟩
  · simp only [verify_dim_2d, List.getD_cons_zero, List.getD_cons_succ, INT_MAX]
    split_ifs with h1 h2 <;> simp <;> omega
  · intro h
    simp only [verify_dim_2d, List.getD_cons_zero, List.getD_cons_succ]
    split_ifs with h1 <;> simp_all <;> omega
  · intro hx hy hp
    simp only [verify_dim_2d, List.getD_cons_zero, List.getD_cons_succ, INT_MAX] at *
    split_ifs with h1 h2 <;> first | rfl | omega
  · simp only [verify_dim_1d, List.getD_cons_zero, List.getD_cons_succ, INT_MAX]
    split_ifs with h1 h2 <;> simp <;> omega
  · intro h
    simp only [verify_dim_1d, List.getD_cons_zero, List.getD_cons_succ]
    split_ifs with h1 <;> first | rfl | omega
  · intro hx hm
    simp only [verify_dim_1d, List.getD_cons_zero, List.getD_cons_succ, INT_MAX] at *
    split_ifs with h1 h2 <;> first | rfl | omega

/-- Witness for C2: the fatal branches at concrete shapes. -/
theorem claim_C2_witness :
    verify_dim_2d [0, 5] = .exit [] "image dimensions 0x5 too small" ∧
    verify_dim_2d [46341, 46341] = .exit [] "image dimensions 46341x46341 too large" ∧
    verify_dim_1d [-1] = .exit [] "image dimension -1 too small" ∧
    verify_dim_1d [2147483647] = .exit [] "image dimension 2147483647 too large" :=
  ⟨(claim_C2 0 5).2.1 (Or.inl (by decide)),
   ((claim_C2 46341 46341).2.2.1 (by decide) (by decide) (by decide)),
   ((claim_C2 (-1) 0).2.2.2.2.1 (by decide)),
   ((claim_C2 2147483647 0).2.2.2.2.2.1 (by decide) (by decide))⟩

/-- C6: opening a file whose first data unit is a table terminates the
process with a diagnostic naming the table kind, and no pixel-level read
occurs on any fatal open path; a file whose first unit is an image yields
the open handle. -/
theorem claim_C6 (fn : String) (file : FitsFile) :
    (file.hdutype = IMAGE_HDU →
      open_image_for_reading fn file = .ok [.openF, .getHduType] file) ∧
    (file.hdutype = ASCII_TBL →
      open_image_for_reading fn file =
        .exit [.openF, .getHduType] "expected IMAGE_HDU, got ASCII_TBL") ∧
    (file.hdutype = BINARY_TBL →
      open_image_for_reading fn file =
        .exit [.openF, .getHduType] "expected IMAGE_HDU, got BINARY_TBL") ∧
    (∀ t m, open_image_for_reading fn file = .exit t m → Ev.readImg ∉ t) := by
  refine ⟨?_, ?_, ?_, ?_⟩
  · intro h
    simp [open_image_for_reading, fits_open_file, fits_get_hdu_type, fcheck, h]
  · intro h
    simp [open_image_for_reading, fits_open_file, fits_get_hdu_type, fcheck, h,
      IMAGE_HDU, ASCII_TBL, BINARY_TBL]
  · intro h
    simp [open_image_for_reading, fits_open_file, fits_get_hdu_type, fcheck, h,
      IMAGE_HDU, ASCII_TBL, BINARY_TBL]
  · intro t m h
    by_cases hh : file.hdutype = IMAGE_HDU
    · simp [open_image_for_reading, fits_open_file, fits_get_hdu_type, fcheck, hh] at h
    · simp [open_image_for_reading, fits_open_file, fits_get_hdu_type, fcheck, hh] at h
      rcases h with ⟨ht, hm⟩
      subst ht
      decide

/-- Witness for C6 at concrete image and table files. -/
theorem claim_C6_witness :
    open_image_for_reading "a" ⟨0, -32, 2, [1, 1], []⟩ =
      .ok [.openF, .getHduType] ⟨0, -32, 2, [1, 1], []⟩ ∧
    open_image_for_reading "a" ⟨1, 0, 0, [], []⟩ =
      .exit [.openF, .getHduType] "expected IMAGE_HDU, got ASCII_TBL" ∧
    open_image_for_reading "a" ⟨2, 0, 0, [], []⟩ =
      .exit [.openF, .getHduType] "expected IMAGE_HDU, got BINARY_TBL" :=
  ⟨(claim_C6 "a" ⟨0, -32, 2, [1, 1], []⟩).1 rfl,
   (claim_C6 "a" ⟨1, 0, 0, [], []⟩).2.1 rfl,
   (claim_C6 "a" ⟨2, 0, 0, [], []⟩).2.2.1 rfl⟩

/-- C10: when the first data unit is neither an image nor one of the two
recognized table kinds, the open step still terminates the process, and
the diagnostic prints the raw numeric unit-type code. -/
theorem claim_C10 (fn : String) (file : FitsFile) (h0 : file.hdutype ≠ IMAGE_HDU)
    (h1 : file.hdutype ≠ ASCII_TBL) (h2 : file.hdutype ≠ BINARY_TBL) :
    open_image_for_reading fn file =
      .exit [.openF, .getHduType] ("expected IMAGE_HDU, got " ++ toString file.hdutype) := by
  simp [open_image_for_reading, fits_open_file, fits_get_hdu_type, fcheck, h0, h1, h2]

/-- Witness for C10 at unit-type code 7. -/
theorem claim_C10_witness :
    open_image_for_reading "a" ⟨7, 0, 0, [], []⟩ =
      .exit [.openF, .getHduType] "expected IMAGE_HDU, got 7" :=
  claim_C10 "a" ⟨7, 0, 0, [], []⟩ (by decide) (by decide) (by decide)

/-- C5: the rank dispatch proceeds with the 1-D load path when the axis
count is 1 and the 2-D load path when it is 2, and for every other axis
count terminates the process with a diagnostic naming the actual count. -/
theorem claim_C5 (prec : Precision) (s : Settings) (f : FitsFile) :
    (f.naxis = 1 → from_image_helper prec s f =
      Proc.addTrace [.getImgDim]
        (Proc.bind (read_image_data_1d prec s.source f)
          (fun img => .ok [] (.driver1D prec s img)))) ∧
    (f.naxis = 2 → from_image_helper prec s f =
      Proc.addTrace [.getImgDim]
        (Proc.bind (read_image_data_2d prec s.source f)
          (fun img => .ok [] (.driver2D prec s img)))) ∧
    (f.naxis ≠ 1 → f.naxis ≠ 2 → from_image_helper prec s f =
      .exit [.getImgDim]
        s!"expected 1-dimensional or 2-dimensional data, got {f.naxis}-dimensional data") := by
  refine ⟨?_, ?_, ?_⟩
  · intro h
    simp [from_image_helper, fits_get_img_dim, fcheck, h]
  · intro h
    simp [from_image_helper, fits_get_img_dim, fcheck, h]
  · intro h1 h2
    simp [from_image_helper, fits_get_img_dim, fcheck, h1, h2]

/-- Witness for C5 at axis counts 1, 2 and 3. -/
theorem claim_C5_witness :
    from_image_helper .f32 ⟨"a"⟩ ⟨0, -32, 1, [1], [some 2]⟩ =
      Proc.addTrace [.getImgDim]
        (Proc.bind (read_image_data_1d .f32 "a" ⟨0, -32, 1, [1], [some 2]⟩)
          (fun img => .ok [] (.driver1D .f32 ⟨"a"⟩ img))) ∧
    from_image_helper .f32 ⟨"a"⟩ ⟨0, -32, 2, [1, 1], [some 2]⟩ =
      Proc.addTrace [.getImgDim]
        (Proc.bind (read_image_data_2d .f32 "a" ⟨0, -32, 2, [1, 1], [some 2]⟩)
          (fun img => .ok [] (.driver2D .f32 ⟨"a"⟩ img))) ∧
    from_image_helper .f32 ⟨"a"⟩ ⟨0, -32, 3, [1, 1, 1], []⟩ =
      .exit [.getImgDim] "expected 1-dimensional or 2-dimensional data, got 3-dimensional data" :=
  ⟨(claim_C5 .f32 ⟨"a"⟩ ⟨0, -32, 1, [1], [some 2]⟩).1 rfl,
   (claim_C5 .f32 ⟨"a"⟩ ⟨0, -32, 2, [1, 1], [some 2]⟩).2.1 rfl,
   (claim_C5 .f32 ⟨"a"⟩ ⟨0, -32, 3, [1, 1, 1], []⟩).2.2 (by decide) (by decide)⟩

/-- C4: the precision dispatch selects the 32-bit-float instantiation when
the storage tag is the 32-bit float tag, the 64-bit-float instantiation
when it is the 64-bit float tag, and otherwise terminates the process with
a diagnostic reporting "N-bit floats" (N the negated tag) for a negative
tag and "N-bit integers" for a non-negative tag. -/
theorem claim_C4 (s : Settings) (file : FitsFile) (himg : file.hdutype = IMAGE_HDU) :
    (file.bitpix = FLOAT_IMG → from_image s file =
      Proc.addTrace [.openF, .getHduType, .getImgType] (from_image_helper .f32 s file)) ∧
    (file.bitpix = DOUBLE_IMG → from_image s file =
      Proc.addTrace [.openF, .getHduType, .getImgType] (from_image_helper .f64 s file)) ∧
    (file.bitpix ≠ FLOAT_IMG → file.bitpix ≠ DOUBLE_IMG → from_image s file =
      .exit [.openF, .getHduType, .getImgType]
        ("unexpected data type: " ++
          (if file.bitpix < 0 then s!"{-file.bitpix}-bit floats"
           else s!"{file.bitpix}-bit integers"))) := by
  refine ⟨?_, ?_, ?_⟩
  · intro h
    cases hh : from_image_helper Precision.f32 s file <;>
      simp [from_image, open_image_for_reading, fits_open_file, fits_get_hdu_type,
        fits_get_img_type, fcheck, get_fits_bitpix, himg, h, hh]
  · intro h
    cases hh : from_image_helper Precision.f64 s file <;>
      simp [from_image, open_image_for_reading, fits_open_file, fits_get_hdu_type,
        fits_get_img_type, fcheck, get_fits_bitpix, himg, h, hh, FLOAT_IMG, DOUBLE_IMG]
  · intro h1 h2
    simp [from_image, open_image_for_reading, fits_open_file, fits_get_hdu_type,
      fits_get_img_type, fcheck, get_fits_bitpix, himg, h1, h2]

/-- Witness for C4 at storage tags -32, -64, -16 and 8. -/
theorem claim_C4_witness :
    from_image ⟨"a"⟩ ⟨0, -32, 1, [1], [some 2]⟩ =
      Proc.addTrace [.openF, .getHduType, .getImgType]
        (from_image_helper .f32 ⟨"a"⟩ ⟨0, -32, 1, [1], [some 2]⟩) ∧
    from_image ⟨"a"⟩ ⟨0, -64, 1, [1], [some 2]⟩ =
      Proc.addTrace [.openF, .getHduType, .getImgType]
        (from_image_helper .f64 ⟨"a"⟩ ⟨0, -64, 1, [1], [some 2]⟩) ∧
    from_image ⟨"a"⟩ ⟨0, -16, 1, [1], []⟩ =
      .exit [.openF, .getHduType, .getImgType] "unexpected data type: 16-bit floats" ∧
    from_image ⟨"a"⟩ ⟨0, 8, 1, [1], []⟩ =
      .exit [.openF, .getHduType, .getImgType] "unexpected data type: 8-bit integers" :=
  ⟨(claim_C4 ⟨"a"⟩ ⟨0, -32, 1, [1], [some 2]⟩ rfl).1 rfl,
   (claim_C4 ⟨"a"⟩ ⟨0, -64, 1, [1], [some 2]⟩ rfl).2.1 rfl,
   (claim_C4 ⟨"a"⟩ ⟨0, -16, 1, [1], []⟩ rfl).2.2 (by decide) (by decide),
   (claim_C4 ⟨"a"⟩ ⟨0, 8, 1, [1], []⟩ rfl).2.2 (by decide) (by decide)⟩

/-- C7: on every successful load path the loader returns the container of
the probed shape, filled by a single whole-buffer read in which every
undefined pixel is substituted by the precision's quiet-NaN sentinel (the
recorded anynul flag does not influence the result), and the close of the
source handle is the final external call before the container is
returned. -/
theorem claim_C7 (prec : Precision) (fn : String) (f : FitsFile) :
    (f.naxis = 2 → 1 ≤ f.naxes.getD 0 0 → 1 ≤ f.naxes.getD 1 0 →
      f.naxes.getD 0 0 * f.naxes.getD 1 0 < INT_MAX →
      read_image_data_2d prec fn f =
        .ok [.getImgSize, .readImg, .closeF]
          { x := f.naxes.getD 0 0, y := f.naxes.getD 1 0,
            p := (f.data.take (f.naxes.getD 0 0 * f.naxes.getD 1 0).toNat).map
              (fun c => match c with | some b => Pix.finite b | none => quiet_NaN prec) }) ∧
    (f.naxis = 1 → 1 ≤ f.naxes.getD 0 0 → f.naxes.getD 0 0 < INT_MAX →
      read_image_data_1d prec fn f =
        .ok [.getImgSize, .readImg, .closeF]
          { x := f.naxes.getD 0 0,
            p := (f.data.take (f.naxes.getD 0 0).toNat).map
              (fun c => match c with | some b => Pix.finite b | none => quiet_NaN prec) }) :=
  ⟨fun h2 hx hy hp => read_image_data_2d_ok prec fn f h2 hx hy hp,
   fun h1 hx hm => read_image_data_1d_ok prec fn f h1 hx hm⟩

/-- Witness for C7 on a 2-D 1x2 file and a 1-D 2-element file, each with
one undefined pixel. -/
theorem claim_C7_witness :
    read_image_data_2d .f32 "a" ⟨0, -32, 2, [1, 2], [some 5, none]⟩ =
      .ok [.getImgSize, .readImg, .closeF] ⟨1, 2, [.finite 5, .nan]⟩ ∧
    read_image_data_1d .f64 "b" ⟨0, -64, 1, [2], [none, some 7]⟩ =
      .ok [.getImgSize, .readImg, .closeF] ⟨2, [.nan, .finite 7]⟩ :=
  ⟨(claim_C7 .f32 "a" ⟨0, -32, 2, [1, 2], [some 5, none]⟩).1 rfl
      (by decide) (by decide) (by decide),
   (claim_C7 .f64 "b" ⟨0, -64, 1, [2], [none, some 7]⟩).2 rfl
      (by decide) (by decide)⟩

/-- C1: the dispatch facade either terminates the process through a fatal
path, or returns a Driver handle wrapping one container of a supported
(precision, rank) combination, having performed the external calls in the
fixed linear order open, image-unit check, precision probe, rank probe,
load (size then read) and close; there is no error-return value. -/
theorem claim_C1 (s : Settings) (file : FitsFile) :
    (∃ t m, from_image s file = .exit t m) ∨
    (∃ d, from_image s file =
      .ok [.openF, .getHduType, .getImgType, .getImgDim, .getImgSize, .readImg, .closeF] d) := by
  by_cases himg : file.hdutype = IMAGE_HDU
  · by_cases h32 : file.bitpix = get_fits_bitpix .f32
    · rcases from_image_helper_cases .f32 s file with ⟨t, m, hm⟩ | ⟨d, hd⟩
      · refine .inl ⟨[Ev.openF, Ev.getHduType, Ev.getImgType] ++ t, m, ?_⟩
        rw [from_image_select .f32 s file himg h32, hm]; rfl
      · refine .inr ⟨d, ?_⟩
        rw [from_image_select .f32 s file himg h32, hd]; rfl
    by_cases h64 : file.bitpix = get_fits_bitpix .f64
    · rcases from_image_helper_cases .f64 s file with ⟨t, m, hm⟩ | ⟨d, hd⟩
      · refine .inl ⟨[Ev.openF, Ev.getHduType, Ev.getImgType] ++ t, m, ?_⟩
        rw [from_image_select .f64 s file himg h64, hm]; rfl
      · refine .inr ⟨d, ?_⟩
        rw [from_image_select .f64 s file himg h64, hd]; rfl
    · refine .inl ⟨[Ev.openF, Ev.getHduType, Ev.getImgType],
        "unexpected data type: " ++
          (if file.bitpix < 0 then s!"{-file.bitpix}-bit floats"
           else s!"{file.bitpix}-bit integers"), ?_⟩
      simp only [get_fits_bitpix, FLOAT_IMG, DOUBLE_IMG] at h32 h64
      simp [from_image, open_image_ok s.source file himg, fits_get_img_type, fcheck,
        get_fits_bitpix, FLOAT_IMG, DOUBLE_IMG, h32, h64]
  · rcases open_image_exit s.source file himg with ⟨m, hm⟩
    refine .inl ⟨[Ev.openF, Ev.getHduType], m, ?_⟩
    simp [from_image, hm]

/-- C3: for every supported (precision, rank) pair, storing a fully
populated container with write_image and loading the resulting file back
yields a container with identical dimensions and bit-identical finite
pixel values, and every pixel stored as the quiet-NaN sentinel is read
back as the sentinel of the same precision: the loaded container is the
stored one. -/
theorem claim_C3 (prec : Precision) (s : Settings) (fn : String)
    (img2 : Image2D) (img1 : Image1D) :
    (1 ≤ img2.x → 1 ≤ img2.y → img2.x * img2.y < INT_MAX →
      (img2.p.length : Int) = img2.x * img2.y →
      ∃ fw, write_image_2d prec fn img2 = .ok [.createF, .createImg, .writeImg, .closeF] fw ∧
        from_image s fw =
          .ok [.openF, .getHduType, .getImgType, .getImgDim, .getImgSize, .readImg, .closeF]
            (.driver2D prec s img2)) ∧
    (1 ≤ img1.x → img1.x < INT_MAX → (img1.p.length : Int) = img1.x →
      ∃ fw, write_image_1d prec fn img1 = .ok [.createF, .createImg, .writeImg, .closeF] fw ∧
        from_image s fw =
          .ok [.openF, .getHduType, .getImgType, .getImgDim, .getImgSize, .readImg, .closeF]
            (.driver1D prec s img1)) := by
  constructor
  · intro hx hy hp hlen
    have hn : (img2.x * img2.y).toNat = img2.p.length := by omega
    have htake : img2.p.take (img2.x * img2.y).toNat = img2.p := by
      rw [hn, List.take_length]
    refine ⟨⟨IMAGE_HDU, get_fits_bitpix prec, 2, [img2.x, img2.y],
      img2.p.map (fun px => match px with | .finite b => some b | .nan => none)⟩, ?_, ?_⟩
    · simp [write_image_2d, fits_create_file, fits_create_img, fits_write_imgnull,
        fits_close_file, fcheck, quiet_NaN, Image2D.size, htake, IMAGE_HDU]
    · have hread := read_image_data_2d_ok prec s.source
        (⟨IMAGE_HDU, get_fits_bitpix prec, 2, [img2.x, img2.y],
          img2.p.map (fun px => match px with | .finite b => some b | .nan => none)⟩ :
            FitsFile) rfl hx hy hp
      rw [from_image_select prec s _ rfl rfl, from_image_helper_rank2 prec s _ rfl, hread]
      have hdata : ((img2.p.map
            (fun px => match px with | .finite b => some b | .nan => none)).take
              (img2.x * img2.y).toNat).map
          (fun c => match c with | some b => Pix.finite b | none => quiet_NaN prec) =
          img2.p := by
        rw [List.take_of_length_le (by simp [hn]), quiet_NaN, subst_store]
      simp only [List.getD_cons_zero, List.getD_cons_succ] at hdata ⊢
      rw [hdata]
      rfl
  · intro hx hm hlen
    have hn : img1.x.toNat = img1.p.length := by omega
    have htake : img1.p.take img1.x.toNat = img1.p := by
      rw [hn, List.take_length]
    refine ⟨⟨IMAGE_HDU, get_fits_bitpix prec, 1, [img1.x],
      img1.p.map (fun px => match px with | .finite b => some b | .nan => none)⟩, ?_, ?_⟩
    · simp [write_image_1d, fits_create_file, fits_create_img, fits_write_imgnull,
        fits_close_file, fcheck, quiet_NaN, Image1D.size, htake, IMAGE_HDU]
    · have hread := read_image_data_1d_ok prec s.source
        (⟨IMAGE_HDU, get_fits_bitpix prec, 1, [img1.x],
          img1.p.map (fun px => match px with | .finite b => some b | .nan => none)⟩ :
            FitsFile) rfl hx hm
      rw [from_image_select prec s _ rfl rfl, from_image_helper_rank1 prec s _ rfl, hread]
      have hdata : ((img1.p.map
            (fun px => match px with | .finite b => some b | .nan => none)).take
              img1.x.toNat).map
          (fun c => match c with | some b => Pix.finite b | none => quiet_NaN prec) =
          img1.p := by
        rw [List.take_of_length_le (by simp [hn]), quiet_NaN, subst_store]
      simp only [List.getD_cons_zero] at hdata ⊢
      rw [hdata]
      rfl

/-- Witness for C3: a 1x2 2-D 32-bit image with one sentinel pixel and a
2-element 1-D 64-bit image with one sentinel pixel round-trip exactly. -/
theorem claim_C3_witness :
    (∃ fw, write_image_2d .f32 "out" ⟨1, 2, [.finite 3, .nan]⟩ =
        .ok [.createF, .createImg, .writeImg, .closeF] fw ∧
      from_image ⟨"out"⟩ fw =
        .ok [.openF, .getHduType, .getImgType, .getImgDim, .getImgSize, .readImg, .closeF]
          (.driver2D .f32 ⟨"out"⟩ ⟨1, 2, [.finite 3, .nan]⟩)) ∧
    (∃ fw, write_image_1d .f64 "out" ⟨2, [.nan, .finite 9]⟩ =
        .ok [.createF, .createImg, .writeImg, .closeF] fw ∧
      from_image ⟨"out"⟩ fw =
        .ok [.openF, .getHduType, .getImgType, .getImgDim, .getImgSize, .readImg, .closeF]
          (.driver1D .f64 ⟨"out"⟩ ⟨2, [.nan, .finite 9]⟩)) :=
  ⟨(claim_C3 .f32 ⟨"out"⟩ "out" ⟨1, 2, [.finite 3, .nan]⟩ ⟨2, [.nan, .finite 9]⟩).1
      (by decide) (by decide) (by decide) (by decide),
   (claim_C3 .f64 ⟨"out"⟩ "out" ⟨1, 2, [.finite 3, .nan]⟩ ⟨2, [.nan, .finite 9]⟩).2
      (by decide) (by decide) (by decide)⟩

end Imageio
